import Mathlib

/-!
Verification of the strato-sdk retrieval strategy layer and adaptive
research control loop, as a shallow embedding of the Go sources
(`src/adapters/search/strategy.go`, `src/adapters/web/strategy.go`,
`src/core/agent/constants.go` and the research agent file).

Go machine integers are modelled as `Int` (values in the programs at hand
stay far from overflow), Go strings as `String` (tokenised as `List Char`
where the code inspects characters), Go `nil` pointers and `nil` slices as
`Option`, and Go maps used as sets as `List`-based sets.  Each engine or
scraper backend call is an oracle: its outcome is passed in as data, so a
strategy execution is a pure function of the configuration and of the
per-engine outcomes.
-/

namespace Strato

/-! ## Search result items and their provenance metadata

`SearchResultItem` models `search.SearchResultItem`: the strategy layer
reads only the `URL` field and writes only the three metadata keys
`search_engine`, `strategy` and `attempt`, so the open `Metadata` map is
modelled by those three optional fields. -/

structure SearchResultItem where
  url : String
  title : String
  searchEngine : Option String
  strategy : Option String
  attempt : Option Nat
  deriving DecidableEq, Repr

/-- Models `searchResult.Metadata["search_engine"] = string(engine)` and
`searchResult.Metadata["strategy"] = "mixed"` in `executeMixedSearch`. -/
def tagMixed (engine : String) (it : SearchResultItem) : SearchResultItem :=
  { it with searchEngine := some engine, strategy := some "mixed" }

/-- Models the three metadata writes in the success branch of
`executeFallbackSearch`: engine, `"fallback"`, and the attempt index `i+1`. -/
def tagFallback (engine : String) (attempt : Nat) (it : SearchResultItem) :
    SearchResultItem :=
  { it with searchEngine := some engine, strategy := some "fallback",
            attempt := some attempt }

/-- Models `search.SearchStrategyConfig` (src/adapters/search/strategy.go). -/
structure SearchStrategyConfig where
  breadth : Int
  mixedEngines : List String
  defaultEngine : String
  defaultFallbackOrder : List String
  enableFallback : Bool
  failFast : Bool
  deriving DecidableEq, Repr

/-- The Go zero value of `SearchStrategyConfig`, produced by
`config = &SearchStrategyConfig{}` when the argument is nil. -/
def zeroSearchConfig : SearchStrategyConfig :=
  { breadth := 0, mixedEngines := [], defaultEngine := "",
    defaultFallbackOrder := [], enableFallback := false, failFast := false }

/-- Models `NewDefaultSearchStrategy`: each `if` mirrors one defaulting
step of the constructor, in source order. -/
def NewDefaultSearchStrategy (config : Option SearchStrategyConfig) :
    SearchStrategyConfig :=
  let c0 := config.getD zeroSearchConfig
  let c1 := if c0.defaultEngine = "" then { c0 with defaultEngine := "searxng" } else c0
  let c2 := if c1.defaultFallbackOrder.isEmpty then
      { c1 with defaultFallbackOrder := ["searxng", "firecrawl"] } else c1
  let c3 := if c2.enableFallback = false then { c2 with enableFallback := true } else c2
  if c3.breadth ≤ 0 then { c3 with breadth := 10 } else c3

/-- Models `getEngineOrder`: the configured fallback order when non-empty,
otherwise the single default engine. -/
def getEngineOrder (cfg : SearchStrategyConfig) : List String :=
  if cfg.defaultFallbackOrder.isEmpty then [cfg.defaultEngine]
  else cfg.defaultFallbackOrder

/-! ## The URL-deduplication loop shared by both search modes -/

/-- Models the per-item dedup loop of `executeMixedSearch` /
`executeFallbackSearch`: skip an item whose non-empty URL was already seen,
otherwise tag its metadata, mark its URL seen, and keep it.  Returns the
kept (tagged) items and the final seen set. -/
def dedupLoop (tag : SearchResultItem → SearchResultItem) :
    List String → List SearchResultItem →
    List SearchResultItem × List String
  | seen, [] => ([], seen)
  | seen, it :: rest =>
    if it.url ≠ "" ∧ it.url ∈ seen then
      dedupLoop tag seen rest
    else
      let seen1 := if it.url ≠ "" then it.url :: seen else seen
      let out := dedupLoop tag seen1 rest
      (tag it :: out.1, out.2)

/-- Models `results[:maxResults]` in `executeMixedSearch`: with a
non-positive breadth the whole list is kept, otherwise the first
`breadth` items. -/
def capResults (breadth : Int) (results : List SearchResultItem) :
    List SearchResultItem :=
  if breadth ≤ 0 then results else results.take breadth.toNat

/-- Models the final truncation of `executeFallbackSearch`:
`if s.config.Breadth > 0 && len(uniqueResults) > s.config.Breadth`. -/
def capFallback (breadth : Int) (unique : List SearchResultItem) :
    List SearchResultItem :=
  if 0 < breadth ∧ breadth < (unique.length : Int) then
    unique.take breadth.toNat
  else unique

/-- Written from the spec sentence for claim C2 ("a single global URL-dedup,
first occurrence wins"): keep an item unless its URL is non-empty and
already seen, recording non-empty URLs.  Compared against `dedupLoop`. -/
def specDedupFirst (seen : List String) :
    List SearchResultItem → List SearchResultItem
  | [] => []
  | it :: rest =>
    if it.url ≠ "" ∧ it.url ∈ seen then specDedupFirst seen rest
    else it :: specDedupFirst (if it.url ≠ "" then it.url :: seen else seen) rest

/-- The seen set after scanning a list, matching the threading of
`specDedupFirst` and `dedupLoop`. -/
def seenAfter (seen : List String) : List SearchResultItem → List String
  | [] => seen
  | it :: rest =>
    if it.url ≠ "" ∧ it.url ∈ seen then seenAfter seen rest
    else seenAfter (if it.url ≠ "" then it.url :: seen else seen) rest

/-! ## Mixed-mode search (`executeMixedSearch`) -/

/-- The outcome of one engine goroutine, as read off the result channel:
`engine`, the possibly-nil response (a nil pointer or a nil result slice is
`none`), and the possibly-nil error. -/
structure EngineResult where
  engine : String
  response : Option (List SearchResultItem)
  err : Option String
  deriving DecidableEq, Repr

/-- The error string `"engine %s failed: %w"` built in the collection loop. -/
def mixedErrMsg (engine msg : String) : String :=
  "engine " ++ engine ++ " failed: " ++ msg

/-- Models the collection loop of `executeMixedSearch` over the results in
completion order: errors are accumulated; a successful non-empty response
is capped to breadth, deduplicated against the global seen set, tagged,
and appended.  Returns (allResults, errors). -/
def mixedCollect (breadth : Int) (seen : List String) :
    List EngineResult → List SearchResultItem × List String
  | [] => ([], [])
  | er :: rest =>
    match er.err with
    | some msg =>
      let out := mixedCollect breadth seen rest
      (out.1, mixedErrMsg er.engine msg :: out.2)
    | none =>
      match er.response with
      | none => mixedCollect breadth seen rest
      | some results =>
        if results.isEmpty then mixedCollect breadth seen rest
        else
          let step := dedupLoop (tagMixed er.engine) seen (capResults breadth results)
          let out := mixedCollect breadth step.2 rest
          (step.1 ++ out.1, out.2)

/-- The ways `executeMixedSearch` can fail: no configured mixed engine, all
engines failed (carrying every collected error), or no engine produced a
result while none reported an error. -/
inductive MixedError where
  | noEngines
  | allFailed (errs : List String)
  | noResults
  deriving DecidableEq, Repr

/-- Result of `executeMixedSearch`: the merged result list or an error. -/
inductive MixedOutcome where
  | ok (results : List SearchResultItem)
  | failure (e : MixedError)
  deriving DecidableEq, Repr

/-- Models `executeMixedSearch`, with the engine goroutine outcomes (in
channel completion order) supplied as data. -/
def executeMixedSearch (cfg : SearchStrategyConfig)
    (completed : List EngineResult) : MixedOutcome :=
  if cfg.mixedEngines.isEmpty then .failure .noEngines
  else
    let out := mixedCollect cfg.breadth [] completed
    if out.1.isEmpty then
      if out.2.isEmpty then .failure .noResults
      else .failure (.allFailed out.2)
    else .ok out.1

/-- The merged items of a mixed outcome (empty on failure). -/
def mixedResultsOf : MixedOutcome → List SearchResultItem
  | .ok results => results
  | .failure _ => []

/-- The per-engine lists of `executeMixedSearch` after the breadth cap and
the provenance tagging, concatenated in completion order, before the
global dedup.  Used to state claim C2's decomposition. -/
def mixedSuccessLists (breadth : Int) : List EngineResult → List SearchResultItem
  | [] => []
  | er :: rest =>
    match er.err with
    | some _ => mixedSuccessLists breadth rest
    | none =>
      match er.response with
      | none => mixedSuccessLists breadth rest
      | some results =>
        if results.isEmpty then mixedSuccessLists breadth rest
        else (capResults breadth results).map (tagMixed er.engine)
              ++ mixedSuccessLists breadth rest

/-- The collected error messages of a mixed run, independent of breadth. -/
def mixedErrors : List EngineResult → List String
  | [] => []
  | er :: rest =>
    match er.err with
    | some msg => mixedErrMsg er.engine msg :: mixedErrors rest
    | none => mixedErrors rest

/-! ## Fallback-mode search (`executeFallbackSearch`)

Each engine of the fallback order is paired with the behaviour its backend
exhibits on this call: adapter creation fails, the `Search` call fails, or
the `Search` call succeeds with a possibly-nil result list. -/

inductive EngineBehavior where
  | createFail (msg : String)
  | searchFail (msg : String)
  | searchOk (results : Option (List SearchResultItem))
  deriving DecidableEq, Repr

/-- Result of `executeFallbackSearch`.  `nilAdapterPanic` records the
control path on which the Go code calls `adapter.Search` through the nil
adapter returned by a failed `getOrCreateAdapter` — a runtime nil-pointer
dereference, reached when adapter creation fails while `FailFast` is false
and the engine is not the last one. -/
inductive FallbackOutcome where
  | success (engine : String) (attempt : Nat)
      (results : Option (List SearchResultItem))
  | allFailed (lastErr : Option String)
  | nilAdapterPanic (engine : String)
  deriving DecidableEq, Repr

/-- The error string `"failed to create adapter for engine %s: %w"`. -/
def createErrMsg (engine msg : String) : String :=
  "failed to create adapter for engine " ++ engine ++ ": " ++ msg

/-- The error string `"engine %s search failed: %w"`. -/
def searchErrMsg (engine msg : String) : String :=
  "engine " ++ engine ++ " search failed: " ++ msg

/-- Models the loop body of `executeFallbackSearch` together with the list
of engines it processes, in order (the second component of the result).
`rest.isEmpty` renders the Go test `i == len(engines)-1` for the engine at
the head.  The `seenURLs` map of the Go code is created empty before the
loop and written only inside the success branch, which returns; so it is
empty whenever the success branch starts, and the success branch passes
`[]` to `dedupLoop` accordingly. -/
def fallbackLoop (cfg : SearchStrategyConfig) :
    Nat → Option String → List (String × EngineBehavior) →
    FallbackOutcome × List String
  | _, lastErr, [] => (.allFailed lastErr, [])
  | i, lastErr, (eng, b) :: rest =>
    match b with
    | .createFail msg =>
      if cfg.failFast ∨ rest.isEmpty then
        let out := fallbackLoop cfg (i + 1) (some (createErrMsg eng msg)) rest
        (out.1, eng :: out.2)
      else (.nilAdapterPanic eng, [eng])
    | .searchFail msg =>
      if cfg.enableFallback = false ∨ rest.isEmpty then
        (.allFailed (some (searchErrMsg eng msg)), [eng])
      else
        let out := fallbackLoop cfg (i + 1) (some (searchErrMsg eng msg)) rest
        (out.1, eng :: out.2)
    | .searchOk results =>
      match results with
      | none => (.success eng (i + 1) none, [eng])
      | some rs =>
        let unique := (dedupLoop (tagFallback eng (i + 1)) [] rs).1
        (.success eng (i + 1) (some (capFallback cfg.breadth unique)), [eng])

/-- Models `executeFallbackSearch`, also returning the engines attempted,
in order. -/
def executeFallbackSearchTr (cfg : SearchStrategyConfig)
    (engines : List (String × EngineBehavior)) :
    FallbackOutcome × List String :=
  fallbackLoop cfg 0 none engines

/-- Models `executeFallbackSearch` (outcome only). -/
def executeFallbackSearch (cfg : SearchStrategyConfig)
    (engines : List (String × EngineBehavior)) : FallbackOutcome :=
  (executeFallbackSearchTr cfg engines).1

/-- The result items of a fallback outcome (empty unless it is a success
with a non-nil result list). -/
def fallbackResultsOf : FallbackOutcome → List SearchResultItem
  | .success _ _ (some rs) => rs
  | _ => []

/-- The engine a fallback outcome succeeded with, if any. -/
def outcomeEngine : FallbackOutcome → Option String
  | .success e _ _ => some e
  | _ => none

/-- The attempt index a fallback outcome succeeded at, if any. -/
def outcomeAttempt : FallbackOutcome → Option Nat
  | .success _ a _ => some a
  | _ => none

/-! ## Web scraping strategy (`src/adapters/web/strategy.go`) -/

/-- Models `web.WebStrategyConfig`. -/
structure WebStrategyConfig where
  defaultScraper : String
  defaultFallbackOrder : List String
  enableFallback : Bool
  failFast : Bool
  deriving DecidableEq, Repr

/-- The Go zero value of `WebStrategyConfig`. -/
def zeroWebConfig : WebStrategyConfig :=
  { defaultScraper := "", defaultFallbackOrder := [],
    enableFallback := false, failFast := false }

/-- Models `NewDefaultWebStrategy`, mirroring its defaulting steps. -/
def NewDefaultWebStrategy (config : Option WebStrategyConfig) :
    WebStrategyConfig :=
  let c0 := config.getD zeroWebConfig
  let c1 := if c0.defaultScraper = "" then { c0 with defaultScraper := "jina" } else c0
  let c2 := if c1.defaultFallbackOrder.isEmpty then
      { c1 with defaultFallbackOrder := ["jina", "firecrawl"] } else c1
  if c2.enableFallback = false then { c2 with enableFallback := true } else c2

/-- Models `web.WebContent` as far as the strategy touches it: the content
payload and the two slices the success branch normalises (nil → empty). -/
structure WebContent where
  content : String
  images : Option (List String)
  links : Option (List String)
  deriving DecidableEq, Repr

/-- Behaviour of one scraper backend on this call. -/
inductive ScrapeBehavior where
  | createFail (msg : String)
  | scrapeFail (msg : String)
  | scrapeOk (result : Option WebContent)
  deriving DecidableEq, Repr

/-- Result of `DefaultWebStrategy.Execute`; `nilAdapterPanic` as in the
search fallback loop. -/
inductive WebOutcome where
  | success (result : Option WebContent)
  | allFailed (lastErr : Option String)
  | nilAdapterPanic (scraper : String)
  deriving DecidableEq, Repr

/-- The nil-slice normalisation of the success branch of `Execute`. -/
def webNormalize : Option WebContent → Option WebContent
  | none => none
  | some c => some { c with images := some (c.images.getD []),
                            links := some (c.links.getD []) }

/-- Models the loop of `DefaultWebStrategy.Execute`, the same control
structure as `fallbackLoop` (the Go loops are textually parallel). -/
def webExecuteLoop (cfg : WebStrategyConfig) :
    Option String → List (String × ScrapeBehavior) → WebOutcome
  | lastErr, [] => .allFailed lastErr
  | lastErr, (scr, b) :: rest =>
    match b with
    | .createFail msg =>
      if cfg.failFast ∨ rest.isEmpty then
        webExecuteLoop cfg (some ("failed to create adapter for " ++ scr ++ ": " ++ msg)) rest
      else .nilAdapterPanic scr
    | .scrapeFail msg =>
      if cfg.enableFallback = false ∨ rest.isEmpty then
        .allFailed (some ("scraper " ++ scr ++ " failed: " ++ msg))
      else
        webExecuteLoop cfg (some ("scraper " ++ scr ++ " failed: " ++ msg)) rest
    | .scrapeOk result => .success (webNormalize result)

/-- Models `DefaultWebStrategy.Execute` with backend behaviours as data. -/
def webExecute (cfg : WebStrategyConfig)
    (scrapers : List (String × ScrapeBehavior)) : WebOutcome :=
  webExecuteLoop cfg none scrapers

/-! ## Agent constants (src/core/agent/constants.go) -/

def QuestionStatusPending : String := "pending"

def QuestionStatusResearching : String := "researching"

def QuestionStatusCompleted : String := "completed"

/-- `StepsPerQuestion = 6`. -/
def StepsPerQuestion : Int := 6

/-- `MinWordLength = 2`. -/
def MinWordLength : Nat := 2

/-! ## The CheckCompletion decision point (`checkCompletionCondition`)

The chat model's sufficiency judgment is an oracle: `judgeReply` is
`some reply` when `chatModel.Generate` returned without error, `none`
when it failed. -/

/-- The fields of `StreamingResearchState` that the decision point and the
question-admission logic read. -/
structure ResearchQuestion where
  question : String
  status : String
  analysis : String
  priority : Int
  deriving DecidableEq, Repr

structure ResearchState where
  currentIteration : Int
  maxIterations : Int
  researchQuestions : List ResearchQuestion
  completedQuestions : Int
  deriving DecidableEq, Repr

/-- The successor node chosen by the CheckCompletion branch. -/
inductive NextNode where
  | synthesizeFinalAnswer
  | selectQuestion
  | generateQuestions
  deriving DecidableEq, Repr

/-- Is `needle` an initial segment of `hay`?  (Component of Go
`strings.Contains`.) -/
def leadsWith : List Char → List Char → Bool
  | [], _ => true
  | _ :: _, [] => false
  | a :: as, b :: bs => a == b && leadsWith as bs

/-- Does `hay` contain `needle` as a contiguous run?  Models Go
`strings.Contains`. -/
def hasSub (needle : List Char) : List Char → Bool
  | [] => leadsWith needle []
  | c :: rest => leadsWith needle (c :: rest) || hasSub needle rest

/-- Character-wise lower-casing; models Go `strings.ToLower` (the inputs
of interest are ASCII, where the two agree). -/
def lowerChars (s : List Char) : List Char := s.map Char.toLower

/-- Models `strings.Contains(strings.ToLower(response.Content), "true")`. -/
def replyContainsTrue (reply : String) : Bool :=
  hasSub "true".toList (lowerChars reply.toList)

/-- Models `err == nil && strings.Contains(strings.ToLower(
response.Content), "true")` over the judgment oracle: false when the
`Generate` call failed. -/
def judgeSaysTrue : Option String → Bool
  | some reply => replyContainsTrue reply
  | none => false

/-- Models `checkCompletionCondition` (the branch closure built in
`buildStreamingResearchGraph`), branch for branch, in source order.
`minQuestions` is `researchConfig.MinQuestions`. -/
def checkCompletionCondition (minQuestions : Int) (judgeReply : Option String)
    (state : ResearchState) : NextNode :=
  if state.maxIterations ≤ state.currentIteration then .synthesizeFinalAnswer
  else if 0 < state.completedQuestions ∧ judgeSaysTrue judgeReply then
    .synthesizeFinalAnswer
  else if state.researchQuestions.any (fun q => q.status == QuestionStatusPending) then
    .selectQuestion
  else if state.completedQuestions < minQuestions ∧
      state.currentIteration < state.maxIterations then .generateQuestions
  else .synthesizeFinalAnswer

/-- Written from the spec's five-branch cascade for claim C1: (1) budget
exhausted → Synthesize; (2) else, with at least one completed question and
a sufficiency reply containing "true" case-insensitively → Synthesize;
(3) else, some pending question → SelectQuestion; (4) else, completed
count below the minimum threshold and iteration below budget →
GenerateQuestions; (5) else → Synthesize. -/
def specCheckCompletion (minQuestions : Int) (judgeReply : Option String)
    (state : ResearchState) : NextNode :=
  if state.currentIteration ≥ state.maxIterations then .synthesizeFinalAnswer
  else if state.completedQuestions > 0 ∧
      (judgeReply.map replyContainsTrue).getD false then .synthesizeFinalAnswer
  else if decide (∃ q ∈ state.researchQuestions, q.status = QuestionStatusPending) then
    .selectQuestion
  else if state.completedQuestions < minQuestions ∧
      state.currentIteration < state.maxIterations then .generateQuestions
  else .synthesizeFinalAnswer

/-! ## Question similarity dedup (`isSimilarQuestionResearched`) -/

/-- Splitter for Go `strings.Fields`: maximal runs of non-whitespace. -/
def fieldsAux : List Char → List Char → List (List Char)
  | acc, [] => if acc.isEmpty then [] else [acc.reverse]
  | acc, c :: rest =>
    if c.isWhitespace then
      if acc.isEmpty then fieldsAux [] rest
      else acc.reverse :: fieldsAux [] rest
    else fieldsAux (c :: acc) rest

/-- Models Go `strings.Fields`. -/
def strFields (s : List Char) : List (List Char) := fieldsAux [] s

/-- The words of a question after `strings.ToLower` and `strings.Fields`. -/
def questionWords (q : List Char) : List (List Char) :=
  strFields (lowerChars q)

/-- The `commonWords` counter of `isSimilarQuestionResearched`: candidate
words longer than `MinWordLength` that occur among the researched
question's words (each candidate word counted once, duplicates in the
candidate counted per occurrence, matching the `break`). -/
def commonQualifyingWords (newQuestion researched : List Char) : Nat :=
  (questionWords newQuestion).countP fun w =>
    decide (MinWordLength < w.length) && (questionWords researched).contains w

/-- Models one iteration of the `isSimilarQuestionResearched` loop: the
similarity verdict of the candidate against a single researched question.
The Go comparison `float64(commonWords)/float64(len(newWords)) >
SimilarityThreshold` with threshold 0.5 is the exact rational comparison
`len(newWords) < 2*commonWords` (both counts are far below any float64
rounding boundary). -/
def isSimilarPair (newQuestion researched : List Char) : Bool :=
  let newWords := questionWords newQuestion
  decide (0 < newWords.length) &&
    decide (newWords.length < 2 * commonQualifyingWords newQuestion researched)

/-- Models `isSimilarQuestionResearched`; the researched set (a Go map
iterated with early return) is a list, `any` matching the disjunction over
its keys. -/
def isSimilarQuestionResearched (newQuestion : List Char)
    (researchedQuestions : List (List Char)) : Bool :=
  researchedQuestions.any (isSimilarPair newQuestion)

/-! ## Budget-aware question admission (`calculateMaxQuestions` and the
admission part of `createGenerateQuestionsNode`) -/

/-- Models `calculateMaxQuestions`: reserve 5 steps, fail to fund any
question when the remainder is below one lifecycle, else divide and clamp
the headroom at zero. -/
def calculateMaxQuestions (maxSteps : Int) (currentQuestionCount : Nat) :
    Int × Int :=
  let reservedSteps : Int := 5
  let availableSteps := maxSteps - reservedSteps
  if availableSteps < StepsPerQuestion then (0, 0)
  else
    let maxTotalQuestions := availableSteps / StepsPerQuestion
    let maxNewQuestions := maxTotalQuestions - (currentQuestionCount : Int)
    if maxNewQuestions < 0 then (maxTotalQuestions, 0)
    else (maxTotalQuestions, maxNewQuestions)

/-- Models the candidate loop of `createGenerateQuestionsNode`: stop once
`maxNew` questions are kept, skip candidates similar to a researched
question, keep the rest in generation order. -/
def selectNewQuestions (maxNew : Int) (researched : List (List Char)) :
    List (List Char) → List (List Char) → List (List Char)
  | acc, [] => acc.reverse
  | acc, cand :: rest =>
    if maxNew ≤ (acc.length : Int) then acc.reverse
    else if isSimilarQuestionResearched cand researched then
      selectNewQuestions maxNew researched acc rest
    else selectNewQuestions maxNew researched (cand :: acc) rest

/-- Models the admission portion of `createGenerateQuestionsNode`: the
texts of the questions appended to the state, given the step budget, the
current question count, the researched set and the generated candidates. -/
def admitQuestions (maxSteps : Int) (currentQuestionCount : Nat)
    (researched : List (List Char)) (candidates : List (List Char)) :
    List (List Char) :=
  let bounds := calculateMaxQuestions maxSteps currentQuestionCount
  if bounds.2 ≤ 0 then []
  else selectNewQuestions bounds.2 researched [] candidates

/-! ## The thought stream (`StreamingThought`, `sendThought`,
`ResearchWithStreaming`) -/

/-- Models `StreamingThought` (the timestamp is irrelevant to the claims
and omitted). -/
structure StreamingThought where
  stage : String
  content : String
  action : String
  isComplete : Bool
  sources : List String
  deriving DecidableEq, Repr

/-- Models the composite literal `&StreamingThought{Timestamp: …, Stage: …,
Content: …, Action: …}` used at every `sendThought` call site inside the
graph nodes of the agent file: the omitted Go fields take their zero
values, `IsComplete = false` and `Sources = nil`. -/
def nodeThought (stage content action : String) : StreamingThought :=
  { stage := stage, content := content, action := action,
    isComplete := false, sources := [] }

/-- Models the terminal error event of `ResearchWithStreaming` (stage
`error`, `IsComplete: true`). -/
def errorThought (content : String) : StreamingThought :=
  { stage := "error", content := content, action := "error",
    isComplete := true, sources := [] }

/-- Models the terminal success event of `ResearchWithStreaming` (stage
`completed`, `IsComplete: true`, sources extracted from the final state). -/
def completedThought (finalAnswer : String) (sources : List String) :
    StreamingThought :=
  { stage := "completed", content := finalAnswer,
    action := "research_complete", isComplete := true, sources := sources }

/-- What the graph invocation returns to the producer goroutine: an error,
or a final state (`nil` modelled as `none`) with its completion flag,
answer and sources. -/
structure FinalState where
  isComplete : Bool
  finalAnswer : String
  sources : List String
  deriving DecidableEq, Repr

/-- Models the tail of the producer goroutine of `ResearchWithStreaming`:
after the graph returns, exactly one error event on failure, one completed
event when the final state is non-nil and complete, nothing otherwise —
and then the channel is closed (the trace ends). -/
def terminalEvents : Except String (Option FinalState) → List StreamingThought
  | .error msg =>
    [errorThought ("Research process encountered an error: " ++ msg)]
  | .ok none => []
  | .ok (some st) =>
    if st.isComplete then [completedThought st.finalAnswer st.sources] else []

/-- The full event trace of one research run as the consumer can observe
it: the graph's progress events that survived the non-blocking
`sendThought` delivery (`delivered`, a sublist of the emitted
`nodeThought` events), followed by the producer's terminal events, after
which the producer closes the channel. -/
def runTrace (delivered : List StreamingThought)
    (result : Except String (Option FinalState)) : List StreamingThought :=
  delivered ++ terminalEvents result

/-- Two result items do not collide on a non-empty URL. -/
def urlDistinct (a b : SearchResultItem) : Prop :=
  a.url = "" ∨ b.url = "" ∨ a.url ≠ b.url

/-- A bare result item with the given URL, before any tagging. -/
def rawItem (url : String) : SearchResultItem :=
  { url := url, title := "t", searchEngine := none, strategy := none,
    attempt := none }

/-- The concrete mixed configuration of claim C7: three engines,
breadth 3. -/
def exampleMixedConfig : SearchStrategyConfig :=
  { breadth := 3, mixedEngines := ["e1", "e2", "e3"],
    defaultEngine := "searxng", defaultFallbackOrder := [],
    enableFallback := true, failFast := false }

/-- The concrete engine outcomes of claim C7: 5 results, an error, and 5
results (one URL shared across the two successful engines). -/
def exampleMixedResults : List EngineResult :=
  [ { engine := "e1", response := some [rawItem "u1", rawItem "u2",
        rawItem "u3", rawItem "u4", rawItem "u5"], err := none },
    { engine := "e2", response := none, err := some "backend unavailable" },
    { engine := "e3", response := some [rawItem "u3", rawItem "u6",
        rawItem "u7", rawItem "u8", rawItem "u9"], err := none } ]

/-! ## Lemmas about the URL-deduplication loops -/

theorem tagMixed_url (engine : String) (it : SearchResultItem) :
    (tagMixed engine it).url = it.url := rfl

theorem tagFallback_url (engine : String) (attempt : Nat)
    (it : SearchResultItem) : (tagFallback engine attempt it).url = it.url := rfl

/-- The in-code dedup loop is the spec-side first-occurrence dedup followed
by tagging, and threads the same seen set. -/
theorem dedupLoop_eq (tag : SearchResultItem → SearchResultItem) :
    ∀ (l : List SearchResultItem) (seen : List String),
      dedupLoop tag seen l = ((specDedupFirst seen l).map tag, seenAfter seen l)
  | [], seen => by simp [dedupLoop, specDedupFirst, seenAfter]
  | it :: rest, seen => by
    by_cases h : it.url ≠ "" ∧ it.url ∈ seen
    · simp only [dedupLoop, specDedupFirst, seenAfter, if_pos h]
      exact dedupLoop_eq tag rest seen
    · simp only [dedupLoop, specDedupFirst, seenAfter, if_neg h,
        dedupLoop_eq tag rest _, List.map_cons]

/-- A URL-preserving tag commutes with the spec-side dedup. -/
theorem specDedupFirst_map (tag : SearchResultItem → SearchResultItem)
    (htag : ∀ it, (tag it).url = it.url) :
    ∀ (l : List SearchResultItem) (seen : List String),
      specDedupFirst seen (l.map tag) = (specDedupFirst seen l).map tag
  | [], _ => by simp [specDedupFirst]
  | it :: rest, seen => by
    by_cases h : it.url ≠ "" ∧ it.url ∈ seen
    · simp only [List.map_cons, specDedupFirst, htag, if_pos h]
      exact specDedupFirst_map tag htag rest seen
    · simp only [List.map_cons, specDedupFirst, htag, if_neg h,
        specDedupFirst_map tag htag rest _]

/-- A URL-preserving tag does not change the seen set a scan produces. -/
theorem seenAfter_map (tag : SearchResultItem → SearchResultItem)
    (htag : ∀ it, (tag it).url = it.url) :
    ∀ (l : List SearchResultItem) (seen : List String),
      seenAfter seen (l.map tag) = seenAfter seen l
  | [], _ => rfl
  | it :: rest, seen => by
    by_cases h : it.url ≠ "" ∧ it.url ∈ seen
    · simp only [List.map_cons, seenAfter, htag, if_pos h]
      exact seenAfter_map tag htag rest seen
    · simp only [List.map_cons, seenAfter, htag, if_neg h,
        seenAfter_map tag htag rest _]

theorem specDedupFirst_append :
    ∀ (a b : List SearchResultItem) (seen : List String),
      specDedupFirst seen (a ++ b) =
        specDedupFirst seen a ++ specDedupFirst (seenAfter seen a) b
  | [], b, seen => by simp [specDedupFirst, seenAfter]
  | it :: rest, b, seen => by
    by_cases h : it.url ≠ "" ∧ it.url ∈ seen
    · simp only [List.cons_append, specDedupFirst, seenAfter, if_pos h]
      exact specDedupFirst_append rest b seen
    · simp only [List.cons_append, specDedupFirst, seenAfter, if_neg h,
        List.append_eq, specDedupFirst_append rest b _, List.cons_append]

/-- Every survivor of the spec-side dedup has an empty URL or a URL absent
from the incoming seen set. -/
theorem specDedupFirst_notSeen :
    ∀ (l : List SearchResultItem) (seen : List String),
      ∀ it ∈ specDedupFirst seen l, it.url = "" ∨ it.url ∉ seen
  | [], seen => by simp [specDedupFirst]
  | it :: rest, seen => by
    by_cases h : it.url ≠ "" ∧ it.url ∈ seen
    · simpa only [specDedupFirst, if_pos h] using specDedupFirst_notSeen rest seen
    · simp only [specDedupFirst, if_neg h, List.mem_cons]
      rintro x (rfl | hx)
      · rcases not_and_or.mp h with h1 | h2
        · exact Or.inl (not_not.mp h1)
        · exact Or.inr h2
      · rcases specDedupFirst_notSeen rest _ x hx with h1 | h2
        · exact Or.inl h1
        · by_cases hu : it.url ≠ ""
          · simp only [if_pos hu, List.mem_cons, not_or] at h2
            exact Or.inr h2.2
          · simpa only [if_neg hu] using Or.inr h2

theorem seenAfter_append :
    ∀ (a b : List SearchResultItem) (seen : List String),
      seenAfter seen (a ++ b) = seenAfter (seenAfter seen a) b
  | [], b, seen => by simp [seenAfter]
  | it :: rest, b, seen => by
    by_cases h : it.url ≠ "" ∧ it.url ∈ seen
    · simp only [List.cons_append, seenAfter, if_pos h]
      exact seenAfter_append rest b seen
    · simp only [List.cons_append, seenAfter, if_neg h]
      exact seenAfter_append rest b _

/-- The spec-side dedup output never repeats a non-empty URL. -/
theorem specDedupFirst_pairwise :
    ∀ (l : List SearchResultItem) (seen : List String),
      List.Pairwise urlDistinct (specDedupFirst seen l)
  | [], seen => by simp [specDedupFirst]
  | it :: rest, seen => by
    by_cases h : it.url ≠ "" ∧ it.url ∈ seen
    · simpa only [specDedupFirst, if_pos h] using specDedupFirst_pairwise rest seen
    · simp only [specDedupFirst, if_neg h]
      refine List.Pairwise.cons ?_ (specDedupFirst_pairwise rest _)
      intro x hx
      by_cases hu : it.url = ""
      · exact Or.inl hu
      · rcases specDedupFirst_notSeen rest _ x hx with h1 | h2
        · exact Or.inr (Or.inl h1)
        · refine Or.inr (Or.inr fun hne => ?_)
          simp only [if_pos (show it.url ≠ "" from hu), List.mem_cons, not_or] at h2
          exact h2.1 hne.symm

/-- The merged item list of the mixed collection loop is exactly the
spec-side global first-occurrence dedup of the per-engine capped and
tagged lists, concatenated in completion order. -/
theorem mixedCollect_fst (breadth : Int) :
    ∀ (ers : List EngineResult) (seen : List String),
      (mixedCollect breadth seen ers).1 =
        specDedupFirst seen (mixedSuccessLists breadth ers)
  | [], seen => by simp [mixedCollect, mixedSuccessLists, specDedupFirst]
  | er :: rest, seen => by
    match her : er.err with
    | some msg =>
      simp only [mixedCollect, mixedSuccessLists, her]
      exact mixedCollect_fst breadth rest seen
    | none =>
      match hresp : er.response with
      | none =>
        simp only [mixedCollect, mixedSuccessLists, her, hresp]
        exact mixedCollect_fst breadth rest seen
      | some results =>
        by_cases hne : results.isEmpty
        · simp only [mixedCollect, mixedSuccessLists, her, hresp, if_pos hne]
          exact mixedCollect_fst breadth rest seen
        · simp only [mixedCollect, mixedSuccessLists, her, hresp, if_neg hne,
            dedupLoop_eq, specDedupFirst_append,
            specDedupFirst_map (tagMixed er.engine) (tagMixed_url er.engine),
            seenAfter_map (tagMixed er.engine) (tagMixed_url er.engine),
            mixedCollect_fst breadth rest _]

/-- The error list of the mixed collection loop does not depend on the
breadth or the seen set. -/
theorem mixedCollect_snd (breadth : Int) :
    ∀ (ers : List EngineResult) (seen : List String),
      (mixedCollect breadth seen ers).2 = mixedErrors ers
  | [], seen => by simp [mixedCollect, mixedErrors]
  | er :: rest, seen => by
    match her : er.err with
    | some msg =>
      simp only [mixedCollect, mixedErrors, her]
      exact congrArg _ (mixedCollect_snd breadth rest seen)
    | none =>
      match hresp : er.response with
      | none =>
        simp only [mixedCollect, mixedErrors, her, hresp]
        exact mixedCollect_snd breadth rest seen
      | some results =>
        by_cases hne : results.isEmpty
        · simp only [mixedCollect, mixedErrors, her, hresp, if_pos hne]
          exact mixedCollect_snd breadth rest seen
        · simp only [mixedCollect, mixedErrors, her, hresp, if_neg hne]
          exact mixedCollect_snd breadth rest _

/-- A URL-preserving tag preserves `urlDistinct`-pairwiseness. -/
theorem pairwise_map_tag (tag : SearchResultItem → SearchResultItem)
    (htag : ∀ it, (tag it).url = it.url) (l : List SearchResultItem)
    (h : List.Pairwise urlDistinct l) :
    List.Pairwise urlDistinct (l.map tag) := by
  rw [List.pairwise_map]
  refine h.imp ?_
  intro a b hab
  rcases hab with h1 | h2 | h3
  · exact Or.inl (by rw [htag, h1])
  · exact Or.inr (Or.inl (by rw [htag, h2]))
  · exact Or.inr (Or.inr (by rw [htag, htag]; exact h3))

/-- Every fallback outcome's result list never repeats a non-empty URL. -/
theorem fallbackLoop_pairwise (cfg : SearchStrategyConfig) :
    ∀ (engines : List (String × EngineBehavior)) (i : Nat)
      (lastErr : Option String),
      List.Pairwise urlDistinct
        (fallbackResultsOf (fallbackLoop cfg i lastErr engines).1)
  | [], _, _ => by simp [fallbackLoop, fallbackResultsOf]
  | (eng, b) :: rest, i, lastErr => by
    cases b with
    | createFail msg =>
      simp only [fallbackLoop]
      split
      · exact fallbackLoop_pairwise cfg rest (i + 1) _
      · simp [fallbackResultsOf]
    | searchFail msg =>
      simp only [fallbackLoop]
      split
      · simp [fallbackResultsOf]
      · exact fallbackLoop_pairwise cfg rest (i + 1) _
    | searchOk results =>
      cases results with
      | none => simp [fallbackLoop, fallbackResultsOf]
      | some rs =>
        simp only [fallbackLoop, fallbackResultsOf, dedupLoop_eq, capFallback]
        have hp : List.Pairwise urlDistinct
            ((specDedupFirst [] rs).map (tagFallback eng (i + 1))) :=
          pairwise_map_tag _ (tagFallback_url eng (i + 1)) _
            (specDedupFirst_pairwise rs [])
        split
        · exact hp.sublist (List.take_sublist _ _)
        · exact hp

/-- The merged result of any mixed call never repeats a non-empty URL. -/
theorem mixed_pairwise (cfg : SearchStrategyConfig) (ers : List EngineResult) :
    List.Pairwise urlDistinct (mixedResultsOf (executeMixedSearch cfg ers)) := by
  unfold executeMixedSearch
  dsimp only
  split
  · simp [mixedResultsOf]
  · split
    · split <;> simp [mixedResultsOf]
    · simp only [mixedResultsOf, mixedCollect_fst]
      exact specDedupFirst_pairwise _ _

/-- Items tagged by `tagFallback` all carry that provenance. -/
theorem all_tagFallback (e : String) (a : Nat) (l : List SearchResultItem) :
    (l.map (tagFallback e a)).all
      (fun it => it.searchEngine == some e && it.strategy == some "fallback" &&
        it.attempt == some a) = true := by
  simp [List.all_map, tagFallback, Function.comp_def]

theorem all_take {p : SearchResultItem → Bool} {l : List SearchResultItem}
    (n : Nat) (h : l.all p = true) : (l.take n).all p = true := by
  simp only [List.all_eq_true] at h ⊢
  exact fun x hx => h x (List.take_subset n l hx)

/-! ## Claim theorems -/

/-- C1: `checkCompletionCondition` evaluates its branches in exactly the
claimed order: (1) iteration budget exhausted → Synthesize; (2) else, with
completed questions and a sufficiency reply containing "true"
case-insensitively → Synthesize; (3) else, a pending question →
SelectQuestion; (4) else, completed count below the minimum and iteration
below budget → GenerateQuestions; (5) else → Synthesize. -/
theorem c1_checkCompletion_branch_order (minQuestions : Int)
    (judgeReply : Option String) (state : ResearchState) :
    checkCompletionCondition minQuestions judgeReply state =
      specCheckCompletion minQuestions judgeReply state := by
  have hj : judgeSaysTrue judgeReply =
      (judgeReply.map replyContainsTrue).getD false := by
    cases judgeReply <;> rfl
  have hp : (state.researchQuestions.any fun q =>
      q.status == QuestionStatusPending) =
      decide (∃ q ∈ state.researchQuestions,
        q.status = QuestionStatusPending) := by
    rw [Bool.eq_iff_iff]
    simp [List.any_eq_true]
  unfold checkCompletionCondition specCheckCompletion
  simp only [hj, hp, ge_iff_le, gt_iff_lt]

/-- C2: in both mixed and fallback mode the merged result never contains
two items with the same non-empty URL; the mixed merge equals the
spec-side decomposition (per-engine breadth cap and provenance tagging
first, then one global first-occurrence URL dedup over the concatenation),
and the fallback success branch equals first-occurrence dedup of the
successful engine's results. -/
theorem c2_merged_urls_unique (cfg : SearchStrategyConfig)
    (ers : List EngineResult) (engines : List (String × EngineBehavior))
    (eng : String) (att : Nat) (rs : List SearchResultItem) :
    List.Pairwise urlDistinct (mixedResultsOf (executeMixedSearch cfg ers)) ∧
    (mixedCollect cfg.breadth [] ers).1 =
      specDedupFirst [] (mixedSuccessLists cfg.breadth ers) ∧
    List.Pairwise urlDistinct
      (fallbackResultsOf (executeFallbackSearch cfg engines)) ∧
    (dedupLoop (tagFallback eng att) [] rs).1 =
      (specDedupFirst [] rs).map (tagFallback eng att) := by
  refine ⟨mixed_pairwise cfg ers, mixedCollect_fst cfg.breadth ers [], ?_,
    by simp [dedupLoop_eq]⟩
  exact fallbackLoop_pairwise cfg engines 0 none

/-- When every engine's `Search` call fails, the fallback loop (with
fallback enabled, the constructor's invariant) walks the whole order and
fails with the last engine's error. -/
theorem fallbackLoop_allFail (cfg : SearchStrategyConfig)
    (hEF : cfg.enableFallback = true) (eng msg : String) :
    ∀ (pre : List (String × EngineBehavior)) (i : Nat)
      (lastErr : Option String),
      (∀ p ∈ pre, ∃ m, p.2 = EngineBehavior.searchFail m) →
      (fallbackLoop cfg i lastErr
        (pre ++ [(eng, EngineBehavior.searchFail msg)])).1 =
        .allFailed (some (searchErrMsg eng msg))
  | [], i, lastErr, _ => by simp [fallbackLoop]
  | (e0, b0) :: pre, i, lastErr, h => by
    obtain ⟨m0, hm⟩ := h (e0, b0) (List.mem_cons_self _ _)
    simp only at hm
    subst hm
    have hcond : ¬(cfg.enableFallback = false ∨
        ((pre ++ [(eng, EngineBehavior.searchFail msg)]).isEmpty) = true) := by
      simp [hEF]
    simp only [List.cons_append, fallbackLoop, List.append_eq]
    rw [if_neg hcond]
    exact fallbackLoop_allFail cfg hEF eng msg pre (i + 1) _
      fun p hp => h p (List.mem_cons_of_mem _ hp)

/-- C3 counterexample: with fail-fast set and fallback order [a, b], engine
a's `Search` call fails and the code still attempts engine b (and succeeds
through it), where the claim says execution halts at a's failure. -/
theorem c3_counterexample :
    (SearchStrategyConfig.failFast
      { breadth := 10, mixedEngines := [], defaultEngine := "searxng",
        defaultFallbackOrder := ["a", "b"], enableFallback := true,
        failFast := true } = true) ∧
    (executeFallbackSearchTr
      { breadth := 10, mixedEngines := [], defaultEngine := "searxng",
        defaultFallbackOrder := ["a", "b"], enableFallback := true,
        failFast := true }
      [("a", EngineBehavior.searchFail "network down"),
       ("b", EngineBehavior.searchOk
          (some [(⟨"u1", "t", none, none, none⟩ : SearchResultItem)]))]).2
      = ["a", "b"] ∧
    outcomeEngine (executeFallbackSearch
      { breadth := 10, mixedEngines := [], defaultEngine := "searxng",
        defaultFallbackOrder := ["a", "b"], enableFallback := true,
        failFast := true }
      [("a", EngineBehavior.searchFail "network down"),
       ("b", EngineBehavior.searchOk
          (some [(⟨"u1", "t", none, none, none⟩ : SearchResultItem)]))])
      = some "b" := by
  refine ⟨rfl, rfl, rfl⟩

/-- C3 amended: after a failed `Search` call the loop halts exactly when
fallback is disabled or the failing engine is last — the fail-fast flag
plays no role there — and otherwise continues to the next engine; when
every engine's call fails, the call fails with an all-engines-failed error
carrying the last engine's error. -/
theorem c3_amended_failure_policy (cfg : SearchStrategyConfig)
    (eng msg : String) (i : Nat) (lastErr : Option String)
    (rest pre : List (String × EngineBehavior)) :
    (cfg.enableFallback = true → rest ≠ [] →
      fallbackLoop cfg i lastErr
        ((eng, EngineBehavior.searchFail msg) :: rest) =
        ((fallbackLoop cfg (i + 1) (some (searchErrMsg eng msg)) rest).1,
         eng :: (fallbackLoop cfg (i + 1) (some (searchErrMsg eng msg)) rest).2)) ∧
    (cfg.enableFallback = false ∨ rest = [] →
      fallbackLoop cfg i lastErr
        ((eng, EngineBehavior.searchFail msg) :: rest) =
        (.allFailed (some (searchErrMsg eng msg)), [eng])) ∧
    (cfg.enableFallback = true →
      (∀ p ∈ pre, ∃ m, p.2 = EngineBehavior.searchFail m) →
      executeFallbackSearch cfg
        (pre ++ [(eng, EngineBehavior.searchFail msg)]) =
        .allFailed (some (searchErrMsg eng msg))) := by
  refine ⟨?_, ?_, ?_⟩
  · intro hEF hrest
    simp [fallbackLoop, hEF, hrest]
  · intro h
    rcases h with h | h
    · simp [fallbackLoop, h]
    · subst h
      simp [fallbackLoop]
  · intro hEF hpre
    exact fallbackLoop_allFail cfg hEF eng msg pre 0 none hpre

/-- C3 witness: the amended statement applied at a two-engine order whose
calls all fail. -/
theorem c3_amended_failure_policy_witness :
    ((SearchStrategyConfig.enableFallback
        { breadth := 10, mixedEngines := [], defaultEngine := "searxng",
          defaultFallbackOrder := ["a", "b"], enableFallback := true,
          failFast := true } = true) ∧
      (∀ p ∈ [("a", EngineBehavior.searchFail "x")],
        ∃ m, p.2 = EngineBehavior.searchFail m)) ∧
    executeFallbackSearch
      { breadth := 10, mixedEngines := [], defaultEngine := "searxng",
        defaultFallbackOrder := ["a", "b"], enableFallback := true,
        failFast := true }
      ([("a", EngineBehavior.searchFail "x")] ++
        [("b", EngineBehavior.searchFail "y")]) =
      .allFailed (some (searchErrMsg "b" "y")) :=
  ⟨⟨rfl, by simp⟩,
    (c3_amended_failure_policy
      { breadth := 10, mixedEngines := [], defaultEngine := "searxng",
        defaultFallbackOrder := ["a", "b"], enableFallback := true,
        failFast := true } "b" "y" 0 none []
      [("a", EngineBehavior.searchFail "x")]).2.2 rfl
      (by simp)⟩

/-- C4 counterexample: the candidate "alpha beta" shares exactly 50% of
its (qualifying) tokens with the researched question "alpha gamma", yet
`isSimilarQuestionResearched` accepts it — the rejection threshold is
strict. -/
theorem c4_counterexample :
    2 * commonQualifyingWords "alpha beta".toList "alpha gamma".toList =
      (questionWords "alpha beta".toList).length ∧
    isSimilarQuestionResearched "alpha beta".toList
      ["alpha gamma".toList] = false := by
  refine ⟨rfl, rfl⟩

/-- C4 amended: a candidate is rejected as a duplicate exactly when, for
some researched question, the count of candidate tokens longer than the
minimum word length that also occur in that researched question strictly
exceeds half the candidate's token count; otherwise it is accepted. -/
theorem c4_amended_similarity (cand : List Char)
    (researched : List (List Char)) :
    isSimilarQuestionResearched cand researched = true ↔
      ∃ r ∈ researched, 0 < (questionWords cand).length ∧
        (questionWords cand).length < 2 * commonQualifyingWords cand r := by
  simp [isSimilarQuestionResearched, isSimilarPair, List.any_eq_true]

/-- C5: question admission is bounded by the step budget: the bound is
`(maxSteps − 5) / 6` (integer division on a non-negative dividend, hence
the floor of the claim) once the remainder funds a lifecycle; no questions
are admitted when the remainder cannot fund one lifecycle or the existing
count meets the bound; and concretely, budget 17 with 2 existing questions
gives bound 2 and admits nothing. -/
theorem c5_budget_bounded_admission (s : Int) (c : Nat)
    (researched cands : List (List Char)) :
    calculateMaxQuestions 17 2 = (2, 0) ∧
    admitQuestions 17 2 researched cands = [] ∧
    ((calculateMaxQuestions s c).1 ≤ (c : Int) →
      (calculateMaxQuestions s c).2 = 0) ∧
    (s - 5 < StepsPerQuestion → calculateMaxQuestions s c = (0, 0)) ∧
    (StepsPerQuestion ≤ s - 5 →
      (calculateMaxQuestions s c).1 = (s - 5) / StepsPerQuestion) ∧
    ((calculateMaxQuestions s c).2 ≤ 0 →
      admitQuestions s c researched cands = []) := by
  refine ⟨by decide, ?_, ?_, ?_, ?_, ?_⟩
  · have h : calculateMaxQuestions 17 2 = (2, 0) := by decide
    simp [admitQuestions, h]
  · unfold calculateMaxQuestions
    dsimp only [StepsPerQuestion]
    split
    · simp
    · split <;> simp_all <;> omega
  · intro h
    unfold calculateMaxQuestions
    rw [if_pos h]
  · intro h
    unfold calculateMaxQuestions
    rw [if_neg (by omega)]
    dsimp only
    split <;> rfl
  · intro h
    unfold admitQuestions
    rw [if_pos h]

/-- C5 witness: the theorem applied at the claim's concrete instance
(budget 17, 2 existing questions) and at an underfunded budget. -/
theorem c5_budget_bounded_admission_witness :
    ((calculateMaxQuestions 17 2).1 ≤ ((2 : Nat) : Int) ∧
      (calculateMaxQuestions 17 2).2 = 0) ∧
    (((3 : Int) - 5 < StepsPerQuestion) ∧ calculateMaxQuestions 3 0 = (0, 0)) ∧
    ((StepsPerQuestion ≤ (17 : Int) - 5) ∧
      (calculateMaxQuestions 17 2).1 = ((17 : Int) - 5) / StepsPerQuestion) ∧
    ((calculateMaxQuestions 17 2).2 ≤ 0 ∧
      admitQuestions 17 2 [] ["alpha".toList] = []) :=
  ⟨⟨by decide,
      (c5_budget_bounded_admission 17 2 [] ["alpha".toList]).2.2.1 (by decide)⟩,
    ⟨by decide,
      (c5_budget_bounded_admission 3 0 [] ["alpha".toList]).2.2.2.1 (by decide)⟩,
    ⟨by decide,
      (c5_budget_bounded_admission 17 2 [] ["alpha".toList]).2.2.2.2.1 (by decide)⟩,
    ⟨by decide,
      (c5_budget_bounded_admission 17 2 [] ["alpha".toList]).2.2.2.2.2 (by decide)⟩⟩

/-- C6: with fallback order [A, B, C], A and B failing, C succeeding, and
fail-fast off (fallback being enabled, as the constructor forces), the
engines are attempted in configured order, A and B before C; the call
succeeds through C at attempt 3, its items deduplicated first and then
truncated to breadth, every item tagged with engine C, strategy
"fallback" and attempt 3. -/
theorem c6_fallback_chain_provenance (cfg : SearchStrategyConfig)
    (A B C mA mB : String) (rs : List SearchResultItem)
    (hEF : cfg.enableFallback = true) (hFF : cfg.failFast = false)
    (hOrder : cfg.defaultFallbackOrder = [A, B, C]) :
    getEngineOrder cfg = [A, B, C] ∧
    (executeFallbackSearchTr cfg
      [(A, EngineBehavior.searchFail mA), (B, EngineBehavior.searchFail mB),
       (C, EngineBehavior.searchOk (some rs))]).2 = [A, B, C] ∧
    executeFallbackSearch cfg
      [(A, EngineBehavior.searchFail mA), (B, EngineBehavior.searchFail mB),
       (C, EngineBehavior.searchOk (some rs))] =
      .success C 3 (some (capFallback cfg.breadth
        ((specDedupFirst [] rs).map (tagFallback C 3)))) ∧
    (fallbackResultsOf (executeFallbackSearch cfg
      [(A, EngineBehavior.searchFail mA), (B, EngineBehavior.searchFail mB),
       (C, EngineBehavior.searchOk (some rs))])).all
      (fun it => it.searchEngine == some C && it.strategy == some "fallback" &&
        it.attempt == some 3) = true := by
  have hrun : executeFallbackSearchTr cfg
      [(A, EngineBehavior.searchFail mA), (B, EngineBehavior.searchFail mB),
       (C, EngineBehavior.searchOk (some rs))] =
      (.success C 3 (some (capFallback cfg.breadth
        ((specDedupFirst [] rs).map (tagFallback C 3)))), [A, B, C]) := by
    simp [executeFallbackSearchTr, fallbackLoop, hEF, dedupLoop_eq]
  have hout : executeFallbackSearch cfg
      [(A, EngineBehavior.searchFail mA), (B, EngineBehavior.searchFail mB),
       (C, EngineBehavior.searchOk (some rs))] =
      .success C 3 (some (capFallback cfg.breadth
        ((specDedupFirst [] rs).map (tagFallback C 3)))) := by
    unfold executeFallbackSearch
    rw [hrun]
  refine ⟨by simp [getEngineOrder, hOrder], by rw [hrun], hout, ?_⟩
  rw [hout]
  simp only [fallbackResultsOf, capFallback]
  split
  · exact all_take _ (all_tagFallback C 3 _)
  · exact all_tagFallback C 3 _

/-- C6 witness: the theorem applied to a concrete three-engine order. -/
theorem c6_fallback_chain_provenance_witness :
    (SearchStrategyConfig.enableFallback
      { breadth := 2, mixedEngines := [], defaultEngine := "searxng",
        defaultFallbackOrder := ["A", "B", "C"], enableFallback := true,
        failFast := false } = true ∧
     SearchStrategyConfig.failFast
      { breadth := 2, mixedEngines := [], defaultEngine := "searxng",
        defaultFallbackOrder := ["A", "B", "C"], enableFallback := true,
        failFast := false } = false ∧
     SearchStrategyConfig.defaultFallbackOrder
      { breadth := 2, mixedEngines := [], defaultEngine := "searxng",
        defaultFallbackOrder := ["A", "B", "C"], enableFallback := true,
        failFast := false } = ["A", "B", "C"]) ∧
    (executeFallbackSearchTr
      { breadth := 2, mixedEngines := [], defaultEngine := "searxng",
        defaultFallbackOrder := ["A", "B", "C"], enableFallback := true,
        failFast := false }
      [("A", EngineBehavior.searchFail "a"), ("B", EngineBehavior.searchFail "b"),
       ("C", EngineBehavior.searchOk
          (some [(⟨"u1", "t", none, none, none⟩ : SearchResultItem)]))]).2
      = ["A", "B", "C"] :=
  ⟨⟨rfl, rfl, rfl⟩,
    (c6_fallback_chain_provenance
      { breadth := 2, mixedEngines := [], defaultEngine := "searxng",
        defaultFallbackOrder := ["A", "B", "C"], enableFallback := true,
        failFast := false } "A" "B" "C" "a" "b"
      [(⟨"u1", "t", none, none, none⟩ : SearchResultItem)]
      rfl rfl rfl).2.1⟩

/-- C7: mixed retrieval tolerates partial engine failure — concretely,
with engines returning 5 results, an error, and 5 results under breadth 3
the call succeeds with at most 6 distinct-URL items; and in general a
mixed call fails only when the merged result list is empty, the error
then carrying every collected per-engine error. -/
theorem c7_mixed_partial_failure_tolerated :
    ((∃ merged, executeMixedSearch exampleMixedConfig exampleMixedResults =
        .ok merged) ∧
     (mixedResultsOf (executeMixedSearch exampleMixedConfig
        exampleMixedResults)).length ≤ 6 ∧
     List.Pairwise urlDistinct (mixedResultsOf (executeMixedSearch
        exampleMixedConfig exampleMixedResults))) ∧
    (∀ (cfg : SearchStrategyConfig) (ers : List EngineResult)
        (e : MixedError),
      ers.length = cfg.mixedEngines.length →
      executeMixedSearch cfg ers = .failure e →
      (mixedCollect cfg.breadth [] ers).1 = [] ∧
      (mixedErrors ers ≠ [] → e = .allFailed (mixedErrors ers))) := by
  refine ⟨⟨⟨(mixedCollect 3 [] exampleMixedResults).1, by decide⟩, by decide,
    mixed_pairwise exampleMixedConfig exampleMixedResults⟩, ?_⟩
  intro cfg ers e hlen h
  unfold executeMixedSearch at h
  by_cases h0 : cfg.mixedEngines.isEmpty
  · rw [if_pos h0] at h
    rw [List.isEmpty_iff] at h0
    rw [h0] at hlen
    have hers : ers = [] := List.length_eq_zero.mp (by simpa using hlen)
    subst hers
    exact ⟨by simp [mixedCollect], fun hne => absurd rfl hne⟩
  · rw [if_neg h0] at h
    dsimp only at h
    by_cases h1 : (mixedCollect cfg.breadth [] ers).1.isEmpty
    · rw [if_pos h1] at h
      refine ⟨List.isEmpty_iff.mp h1, ?_⟩
      intro hne
      by_cases h2 : (mixedCollect cfg.breadth [] ers).2.isEmpty
      · exfalso
        rw [mixedCollect_snd] at h2
        exact hne (List.isEmpty_iff.mp h2)
      · rw [if_neg h2] at h
        cases h
        rw [mixedCollect_snd]
    · rw [if_neg h1] at h
      simp at h

/-- C7 witness: the general clause applied to a single failing engine. -/
theorem c7_mixed_partial_failure_tolerated_witness :
    (([{ engine := "x", response := none,
          err := some "boom" }] : List EngineResult).length =
      (SearchStrategyConfig.mixedEngines
        { breadth := 3, mixedEngines := ["x"], defaultEngine := "searxng",
          defaultFallbackOrder := [], enableFallback := true,
          failFast := false }).length ∧
     executeMixedSearch
        { breadth := 3, mixedEngines := ["x"], defaultEngine := "searxng",
          defaultFallbackOrder := [], enableFallback := true,
          failFast := false }
        [{ engine := "x", response := none, err := some "boom" }] =
        .failure (.allFailed [mixedErrMsg "x" "boom"])) ∧
    ((mixedCollect 3 []
        [{ engine := "x", response := none, err := some "boom" }]).1 = [] ∧
     (mixedErrors [{ engine := "x", response := none, err := some "boom" }] ≠ [] →
      MixedError.allFailed [mixedErrMsg "x" "boom"] =
        .allFailed (mixedErrors
          [{ engine := "x", response := none, err := some "boom" }]))) :=
  ⟨⟨rfl, rfl⟩,
    (c7_mixed_partial_failure_tolerated.2
      { breadth := 3, mixedEngines := ["x"], defaultEngine := "searxng",
        defaultFallbackOrder := [], enableFallback := true, failFast := false }
      [{ engine := "x", response := none, err := some "boom" }]
      (.allFailed [mixedErrMsg "x" "boom"]) rfl rfl)⟩

/-- C8: every progress event a graph node emits has the completion flag
false; the producer's terminal emission contains at most one event, which
is the only completion-flagged event of the whole trace — so any delivered
stream (a sublist of the emitted progress events followed by the terminal
events, after which the producer closes the channel) carries at most one
completion-flagged event. -/
theorem c8_at_most_one_completion_event
    (emitted delivered : List StreamingThought)
    (result : Except String (Option FinalState))
    (hgen : ∀ t ∈ emitted, ∃ s c a, t = nodeThought s c a)
    (hsub : delivered.Sublist emitted) :
    (∀ s c a, (nodeThought s c a).isComplete = false) ∧
    delivered.countP (fun t => t.isComplete) = 0 ∧
    (runTrace delivered result).countP (fun t => t.isComplete) ≤ 1 := by
  have hz : delivered.countP (fun t => t.isComplete) = 0 := by
    rw [List.countP_eq_zero]
    intro t ht
    obtain ⟨s, c, a, rfl⟩ := hgen t (hsub.subset ht)
    simp [nodeThought]
  refine ⟨fun s c a => rfl, hz, ?_⟩
  rw [runTrace, List.countP_append, hz]
  rcases result with msg | st
  · simp [terminalEvents, errorThought]
  · rcases st with _ | st
    · simp [terminalEvents]
    · by_cases hc : st.isComplete = true <;>
        simp [terminalEvents, hc, completedThought]

/-- C8 witness: the theorem applied to an empty delivered stream and a
successful complete run. -/
theorem c8_at_most_one_completion_event_witness :
    ((∀ t ∈ ([] : List StreamingThought), ∃ s c a, t = nodeThought s c a) ∧
     List.Sublist ([] : List StreamingThought) []) ∧
    ((∀ s c a, (nodeThought s c a).isComplete = false) ∧
     ([] : List StreamingThought).countP (fun t => t.isComplete) = 0 ∧
     (runTrace [] (.ok (some (⟨true, "report", ["u1"]⟩ : FinalState)))).countP
        (fun t => t.isComplete) ≤ 1) :=
  ⟨⟨by simp, List.Sublist.refl []⟩,
    c8_at_most_one_completion_event [] []
      (.ok (some (⟨true, "report", ["u1"]⟩ : FinalState)))
      (by simp) (List.Sublist.refl [])⟩

/-- C9 (code bug): when adapter creation fails with fail-fast unset and a
later engine remaining, the fallback loops of both the search strategy and
the web strategy invoke the capability through the nil adapter — the
claimed skip-or-fail behaviour does not hold on this path. -/
theorem c9_nil_adapter_dereference :
    executeFallbackSearchTr
      { breadth := 10, mixedEngines := [], defaultEngine := "searxng",
        defaultFallbackOrder := ["a", "b"], enableFallback := true,
        failFast := false }
      [("a", EngineBehavior.createFail "engine a not registered"),
       ("b", EngineBehavior.searchOk (some []))] =
      (.nilAdapterPanic "a", ["a"]) ∧
    webExecute
      { defaultScraper := "jina", defaultFallbackOrder := ["a", "b"],
        enableFallback := true, failFast := false }
      [("a", ScrapeBehavior.createFail "scraper a not registered"),
       ("b", ScrapeBehavior.scrapeOk
          (some (⟨"c", none, none⟩ : WebContent)))] = .nilAdapterPanic "a" :=
  ⟨rfl, rfl⟩

/-- C10: both default-strategy constructors force the enable-fallback flag
to true for every input configuration, including a nil one and one that
explicitly sets the flag to false. -/
theorem c10_enableFallback_forced (sc : Option SearchStrategyConfig)
    (wc : Option WebStrategyConfig) :
    (NewDefaultSearchStrategy sc).enableFallback = true ∧
    (NewDefaultWebStrategy wc).enableFallback = true := by
  constructor
  · simp only [NewDefaultSearchStrategy]
    split_ifs <;> simp_all
  · simp only [NewDefaultWebStrategy]
    split_ifs <;> simp_all

end Strato
